import Mathlib

/-!
Shallow embedding of the Task Management API (src/main.py): the task data
model (`TaskModel`), the pydantic request schemas (`TaskCreate`,
`TaskUpdate`), the path-parameter UUID parsing performed by the framework,
and the five CRUD endpoints (`create_task`, `get_task`, `get_tasks`,
`update_task`, `delete_task`).

Modelling conventions:
- The repository (the SQLite `tasks` table) is a `List Task` in insertion
  order; a plain `SELECT` without `ORDER BY` returns rows in that stable
  order, and an in-place row `UPDATE` keeps the row's position.
- A 128-bit UUID value is a `Nat` (the integer value of the identifier);
  timestamps are `Nat` (an abstract monotone clock sample); each request
  receives the clock reading `now` of `datetime.utcnow()` during that
  request as an explicit argument, and `create_task` receives the fresh
  `uuid.uuid4()` value as `fresh`.
- FastAPI resolves and validates all parameters (the `task_uuid: uuid.UUID`
  path parameter and the pydantic body) before the handler body runs; any
  failure there is HTTP 422, modelled as `ApiError.ValidationError`. The
  handler's `raise HTTPException(404)` is `ApiError.NotFoundError`. A
  database `IntegrityError` escaping `db.commit()` is HTTP 500, modelled
  as `ApiError.InternalError`.
- Each endpoint returns its response together with the post-state of the
  repository; on every error path the transaction is never committed, so
  the post-state equals the pre-state.
-/

namespace TaskApi

/-- The three-state lifecycle enumeration `TaskStatus` of src/main.py. -/
inductive TaskStatus where
  | created
  | in_progress
  | completed
deriving DecidableEq, Repr

/-- A persisted row of the `tasks` table (`TaskModel`): primary key `uuid`,
`name` (NOT NULL), nullable `description`, `status` (NOT NULL), and the two
timestamps. The serialized `TaskResponse` exposes exactly these fields. -/
structure Task where
  uuid : Nat
  name : String
  description : Option String
  status : TaskStatus
  created_at : Nat
  updated_at : Nat
deriving DecidableEq, Repr

/-- The error outcomes observable from an endpoint: HTTP 422 (request
validation), HTTP 404 (`Task not found`), HTTP 500 (a database error such
as a NOT NULL constraint violation raised at commit). -/
inductive ApiError where
  | ValidationError
  | NotFoundError
  | InternalError
deriving DecidableEq, Repr

/-- Request body of POST /tasks/ (`TaskCreate`, inheriting `TaskBase`):
`name` required, `description` optional. -/
structure TaskCreate where
  name : String
  description : Option String
deriving DecidableEq, Repr

/-- Pydantic validation of `TaskBase`/`TaskCreate`: `name` has
`min_length=1, max_length=255`; `description`, when given and non-null,
has `max_length=1000` (`None` skips the length constraint). -/
def TaskCreate.valid (r : TaskCreate) : Bool :=
  1 ≤ r.name.length && r.name.length ≤ 255 &&
    (match r.description with
     | none => true
     | some d => d.length ≤ 1000)

/-- Request body of PUT /tasks/{uuid} (`TaskUpdate`). Pydantic v2 with
`dict(exclude_unset=True)` distinguishes three shapes per field: absent
from the JSON body (`none`), present as JSON `null` (`some none`), and
present with a value (`some (some v)`). An unknown status string is
rejected at parse time, so a parsed `status` is always one of the three
enumeration values. -/
structure TaskUpdate where
  name : Option (Option String)
  description : Option (Option String)
  status : Option (Option TaskStatus)
deriving DecidableEq, Repr

/-- Pydantic validation of `TaskUpdate`: the length constraints of
`TaskBase` apply to each field that is present with a non-null value;
`Optional` fields accept explicit `null` without running the length
constraints. -/
def TaskUpdate.valid (u : TaskUpdate) : Bool :=
  (match u.name with
   | some (some n) => 1 ≤ n.length && n.length ≤ 255
   | _ => true) &&
  (match u.description with
   | some (some d) => d.length ≤ 1000
   | _ => true)

/-- Whether the patch explicitly sets a NOT NULL column (`name` or
`status`) to `null`: pydantic accepts such a body, the handler then
assigns `None` to the attribute, and `db.commit()` raises an
`IntegrityError` from the NOT NULL constraint. -/
def TaskUpdate.nullsNonNullable (u : TaskUpdate) : Bool :=
  u.name == some none || u.status == some none

/-! ### UUID path-parameter parsing

The handlers declare `task_uuid: uuid.UUID`; FastAPI feeds the raw path
segment to Python's `uuid.UUID(s)`, which removes every occurrence of
`urn:` and of `uuid:`, strips `\x7b`/`\x7d` braces from both ends, removes
every hyphen, and requires exactly 32 hexadecimal digits whose value is
the 128-bit identifier. A failure is reported by FastAPI as HTTP 422
before the handler body runs. -/

/-- Value of one hexadecimal digit, or `none`. The code-point ranges are
48–57 for the decimal digits, 97–102 for `a`–`f` (value `code - 87`), and
65–70 for `A`–`F` (value `code - 55`). -/
def hexDigit? (c : Char) : Option Nat :=
  let code := c.toNat
  if 48 ≤ code ∧ code ≤ 57 then some (code - 48)
  else if 97 ≤ code ∧ code ≤ 102 then some (code - 87)
  else if 65 ≤ code ∧ code ≤ 70 then some (code - 55)
  else none

/-- Value of a string of hexadecimal digits, or `none` if any character is
not a hexadecimal digit. -/
def hexValue? (cs : List Char) : Option Nat :=
  cs.foldl
    (fun acc c =>
      match acc, hexDigit? c with
      | some a, some d => some (a * 16 + d)
      | _, _ => none)
    (some 0)

/-- Removal of every occurrence of the substring `urn:`
(Python `hex.replace('urn:', '')`). -/
def removeUrn : List Char → List Char
  | 'u' :: 'r' :: 'n' :: ':' :: rest => removeUrn rest
  | c :: rest => c :: removeUrn rest
  | [] => []

/-- Removal of every occurrence of the substring `uuid:`
(Python `hex.replace('uuid:', '')`). -/
def removeUuidColon : List Char → List Char
  | 'u' :: 'u' :: 'i' :: 'd' :: ':' :: rest => removeUuidColon rest
  | c :: rest => c :: removeUuidColon rest
  | [] => []

/-- Removal of every hyphen (Python `hex.replace('-', '')`). -/
def removeHyphens : List Char → List Char
  | '-' :: rest => removeHyphens rest
  | c :: rest => c :: removeHyphens rest
  | [] => []

/-- A curly brace character. -/
def isBrace (c : Char) : Bool :=
  c == '\x7b' || c == '\x7d'

/-- Python `hex.strip('\x7b\x7d')`: brace characters are dropped from both
ends. -/
def stripBraces (cs : List Char) : List Char :=
  ((cs.dropWhile isBrace).reverse.dropWhile isBrace).reverse

/-- The `uuid.UUID(s)` constructor as invoked by the path-parameter
conversion: cleanup of the accepted decorations, then exactly 32
hexadecimal digits giving the 128-bit value. -/
def parseUUID (s : String) : Option Nat :=
  let cs := removeHyphens (stripBraces (removeUuidColon (removeUrn s.data)))
  if cs.length = 32 then hexValue? cs else none

/-! ### Repository operations (the SQLAlchemy session calls) -/

/-- `db.query(TaskModel).filter(TaskModel.uuid == id).first()`: the first
row of the table whose primary key equals `id`. -/
def dbGet (db : List Task) (id : Nat) : Option Task :=
  db.find? (fun t => t.uuid == id)

/-- An in-place row UPDATE keyed by the primary key of `t2`: every row with
that key is replaced by `t2`, all rows keep their positions. -/
def dbPut (db : List Task) (t2 : Task) : List Task :=
  db.map (fun t => if t.uuid == t2.uuid then t2 else t)

/-- `DELETE FROM tasks WHERE uuid = id` (`db.delete(db_task)` keyed by the
primary key). -/
def dbDelete (db : List Task) (id : Nat) : List Task :=
  db.filter (fun t => !(t.uuid == id))

/-! ### The list-query building blocks of GET /tasks/ -/

/-- The `(status filter, skip, limit)` triple the handler hands to the
store: `query.offset(skip).limit(limit)` built from the raw `int`
parameters with no bounds check of its own. -/
structure StoreQuery where
  statusFilter : Option TaskStatus
  skip : Int
  limit : Int
deriving DecidableEq, Repr

/-- The query `get_tasks` builds: the parameters are passed to the store
verbatim. -/
def get_tasks_query (skip limit : Int) (s? : Option TaskStatus) : StoreQuery :=
  { statusFilter := s?, skip := skip, limit := limit }

/-- `if status: query = query.filter(TaskModel.status == status)` — a
`TaskStatus` enum member is always truthy, so the filter is applied
exactly when the parameter is given. -/
def filterStatus (db : List Task) (s? : Option TaskStatus) : List Task :=
  match s? with
  | none => db
  | some s => db.filter (fun t => t.status == s)

/-- SQLite `OFFSET`: a negative offset behaves as 0 (`Int.toNat` sends
negatives to 0). -/
def sqlOffset (rows : List Task) (skip : Int) : List Task :=
  rows.drop skip.toNat

/-- SQLite `LIMIT`: a negative limit means no limit at all. -/
def sqlLimit (rows : List Task) (lim : Int) : List Task :=
  if lim < 0 then rows else rows.take lim.toNat

/-- Execution of a built query against the table. -/
def runStoreQuery (db : List Task) (q : StoreQuery) : List Task :=
  sqlLimit (sqlOffset (filterStatus db q.statusFilter) q.skip) q.limit

/-! ### The five endpoints -/

/-- Declared default of the `skip` query parameter of GET /tasks/. -/
def defaultSkip : Int := 0

/-- Declared default of the `limit` query parameter of GET /tasks/. -/
def defaultLimit : Int := 100

/-- The row built by `TaskModel(name=task.name, description=task.description)`
at insert time: the column defaults fill `uuid` with `uuid.uuid4()` and
`status` with `created`; `created_at` and `updated_at` each carry their own
`default=datetime.utcnow` callable, and SQLAlchemy evaluates the two
callables independently at flush time — `nowC` and `nowU` are those two
separate clock readings, which the program never forces to coincide. -/
def freshTask (fresh nowC nowU : Nat) (req : TaskCreate) : Task :=
  { uuid := fresh, name := req.name, description := req.description,
    status := TaskStatus.created, created_at := nowC, updated_at := nowU }

/-- POST /tasks/ (`create_task`): pydantic validates the body (422 on
violation, nothing persisted); otherwise a new row with the fresh uuid,
`status = created` and the two independently-evaluated timestamp column
defaults is appended and returned with HTTP 201. -/
def create_task (db : List Task) (fresh nowC nowU : Nat) (req : TaskCreate) :
    Except ApiError Task × List Task :=
  if req.valid then
    (Except.ok (freshTask fresh nowC nowU req), db ++ [freshTask fresh nowC nowU req])
  else
    (Except.error ApiError.ValidationError, db)

/-- GET /tasks/{uuid} (`get_task`): the path parameter must parse as a
UUID (422 otherwise, the handler never runs and the table is never read);
then the row is looked up by primary key — 404 when absent, otherwise the
stored row is returned as-is. -/
def get_task (db : List Task) (raw : String) : Except ApiError Task :=
  match parseUUID raw with
  | none => Except.error ApiError.ValidationError
  | some id =>
    match dbGet db id with
    | none => Except.error ApiError.NotFoundError
    | some t => Except.ok t

/-- GET /tasks/ (`get_tasks`): optional status filter, then
`offset(skip).limit(limit)`. `skip` and `limit` are plain `int` query
parameters with defaults 0 and 100 and no non-negativity constraint; the
received values reach the store verbatim. -/
def get_tasks (db : List Task) (skip limit : Int) (s? : Option TaskStatus) :
    List Task :=
  runStoreQuery db (get_tasks_query skip limit s?)

/-- The merge loop `for field, value in update_data.items():
setattr(db_task, field, value)` over the fields present in the body
(`exclude_unset=True`), followed by `db_task.updated_at =
datetime.utcnow()`. A field absent from the body leaves the column
untouched; `created_at` is never assigned. (For a body that nulls a NOT
NULL column the merged row is never committed, see `update_task`.) -/
def applyPatch (t : Task) (u : TaskUpdate) (now : Nat) : Task :=
  { uuid := t.uuid
    name := (match u.name with
             | some (some n) => n
             | _ => t.name)
    description := (match u.description with
                    | some d => d
                    | none => t.description)
    status := (match u.status with
               | some (some s) => s
               | _ => t.status)
    created_at := t.created_at
    updated_at := now }

/-- PUT /tasks/{uuid} (`update_task`): UUID parse and pydantic body
validation happen before the handler (422, nothing touched); then the row
is looked up — 404 when absent; otherwise the fields present in the body
are merged onto the row, `updated_at` is set to the current time, and the
row is committed — unless a NOT NULL column was assigned `null`, in which
case the commit raises and nothing is persisted (500). -/
def update_task (db : List Task) (now : Nat) (raw : String) (u : TaskUpdate) :
    Except ApiError Task × List Task :=
  match parseUUID raw with
  | none => (Except.error ApiError.ValidationError, db)
  | some id =>
    if u.valid then
      match dbGet db id with
      | none => (Except.error ApiError.NotFoundError, db)
      | some t =>
        if u.nullsNonNullable then
          (Except.error ApiError.InternalError, db)
        else
          (Except.ok (applyPatch t u now), dbPut db (applyPatch t u now))
    else
      (Except.error ApiError.ValidationError, db)

/-- DELETE /tasks/{uuid} (`delete_task`): UUID parse first (422); 404 when
the row is absent; otherwise the row is removed permanently and HTTP 204
carries no payload. -/
def delete_task (db : List Task) (raw : String) :
    Except ApiError Unit × List Task :=
  match parseUUID raw with
  | none => (Except.error ApiError.ValidationError, db)
  | some id =>
    match dbGet db id with
    | none => (Except.error ApiError.NotFoundError, db)
    | some _ => (Except.ok (), dbDelete db id)

/-! ### Concrete fixtures used by witnesses and counterexamples -/

/-- A well-formed identifier string whose 128-bit value is 1. -/
def uuidRaw1 : String := "00000000-0000-0000-0000-000000000001"

/-- A well-formed identifier string whose 128-bit value is 42. -/
def uuidRaw42 : String := "00000000-0000-0000-0000-00000000002a"

/-- A stored task with identifier value 1. -/
def task1 : Task :=
  { uuid := 1, name := "Test Task", description := some "This is a test task",
    status := TaskStatus.created, created_at := 3, updated_at := 3 }

/-- A stored task with identifier value 2, in progress. -/
def task2 : Task :=
  { uuid := 2, name := "Another Task", description := none,
    status := TaskStatus.in_progress, created_at := 4, updated_at := 4 }

/-- A patch body whose present `name` is the empty string (violates
`min_length=1`). -/
def badNamePatch : TaskUpdate :=
  { name := some (some ""), description := none, status := none }

/-- A patch body that explicitly sets `name` to `null`. -/
def nullNamePatch : TaskUpdate :=
  { name := some none, description := none, status := none }

/-- A patch body that only renames. -/
def renamePatch : TaskUpdate :=
  { name := some (some "New name"), description := none, status := none }

/-- A patch body that explicitly sets `description` to `null`. -/
def nullDescPatch : TaskUpdate :=
  { name := none, description := some none, status := none }

/-- A store holding 101 tasks, all with status `created`. -/
def db101 : List Task :=
  (List.range 101).map
    (fun i =>
      { uuid := i, name := "t", description := none,
        status := TaskStatus.created, created_at := 0, updated_at := 0 })

/-- A store holding five tasks, in insertion order of their identifiers. -/
def wdb5 : List Task :=
  (List.range 5).map
    (fun i =>
      { uuid := i, name := "t", description := none,
        status := TaskStatus.created, created_at := 0, updated_at := 0 })

/-! ### Helper lemmas about the repository operations -/

/-- After deleting every row keyed `id`, a lookup of `id` finds nothing. -/
theorem dbGet_dbDelete (db : List Task) (id : Nat) :
    dbGet (dbDelete db id) id = none := by
  rw [dbGet, dbDelete, List.find?_eq_none]
  intro t ht
  have h2 := (List.mem_filter.mp ht).2
  simp only [Bool.not_eq_eq_eq_not, Bool.not_true, beq_eq_false_iff_ne] at h2
  simp [h2]

/-- A row UPDATE keyed by the primary key of `t2` is visible to the next
lookup of that key, provided some row with that key existed. -/
theorem dbGet_dbPut_same (db : List Task) (t2 : Task)
    (h : ∃ t ∈ db, t.uuid = t2.uuid) :
    dbGet (dbPut db t2) t2.uuid = some t2 := by
  induction db with
  | nil =>
    rcases h with ⟨t, ht, _⟩
    cases ht
  | cons a l ih =>
    by_cases ha : a.uuid = t2.uuid
    · simp [dbGet, dbPut, ha]
    · rcases h with ⟨t, ht, htu⟩
      rcases List.mem_cons.mp ht with rfl | htl
      · exact absurd htu ha
      · have hrest := ih ⟨t, htl, htu⟩
        simpa [dbGet, dbPut, ha] using hrest

/-- A successful lookup keyed `id` returns a row whose key is `id` and
which is a member of the table. -/
theorem dbGet_some (db : List Task) (id : Nat) (t : Task)
    (h : dbGet db id = some t) : t.uuid = id ∧ t ∈ db := by
  refine ⟨?_, List.mem_of_find?_eq_some h⟩
  have := List.find?_some h
  simpa using this

/-- The success path of `update_task`: parseable id, valid body, row
present, no NOT NULL column nulled — the merged row is committed and
returned. -/
theorem update_task_ok (db : List Task) (now : Nat) (raw : String)
    (u : TaskUpdate) (id : Nat) (t : Task)
    (hraw : parseUUID raw = some id) (hfind : dbGet db id = some t)
    (hv : u.valid = true) (hnn : u.nullsNonNullable = false) :
    update_task db now raw u =
      (Except.ok (applyPatch t u now), dbPut db (applyPatch t u now)) := by
  unfold update_task
  rw [hraw]
  simp [hv, hfind, hnn]

/-! ### Claims -/

/-- C1 counterexample: the claim says that for an id that does not resolve
to an existing task the update produces `NotFoundError` regardless of
whether the patch body is valid. On the code, body validation runs before
the handler: at the concrete input (empty store, well-formed id 1, patch
with `name = ""`), the id resolves to no task yet the update produces
`ValidationError`, not `NotFoundError`. -/
theorem C1_counterexample :
    dbGet ([] : List Task) 1 = none ∧
    parseUUID uuidRaw1 = some 1 ∧
    update_task [] 5 uuidRaw1 badNamePatch =
      (Except.error ApiError.ValidationError, ([] : List Task)) ∧
    ApiError.ValidationError ≠ ApiError.NotFoundError := by
  refine ⟨rfl, by decide, rfl, by decide⟩

/-- C1 (amended): for every update request whose well-formed id does not
resolve to an existing task and whose patch body passes validation, the
update produces `NotFoundError` and leaves the store untouched; when the
patch body itself fails validation, validation (which precedes the
handler) reports `ValidationError` instead. -/
theorem C1_notfound_valid_patch (db : List Task) (now : Nat) (raw : String)
    (u : TaskUpdate) (id : Nat)
    (hraw : parseUUID raw = some id) (habs : dbGet db id = none)
    (hv : u.valid = true) :
    update_task db now raw u = (Except.error ApiError.NotFoundError, db) := by
  unfold update_task
  rw [hraw]
  simp [hv, habs]

/-- C1 witness: the amended theorem at the concrete input of the
counterexample's store with a valid rename patch. -/
theorem C1_notfound_valid_patch_witness :
    update_task [] 5 uuidRaw1 renamePatch =
      (Except.error ApiError.NotFoundError, ([] : List Task)) :=
  C1_notfound_valid_patch [] 5 uuidRaw1 renamePatch 1 (by decide) rfl (by decide)

/-- C2 counterexample: the claim says every field present in the patch is
validated with the create rules and any violation is rejected with
`ValidationError`. A patch that explicitly sets `name` to `null` is
present and violates create's rule for `name` (a 1–255-character string),
yet pydantic's `Optional` accepts it, and the update against an existing
task fails only at commit with the NOT NULL `IntegrityError` (HTTP 500,
`InternalError`), not with `ValidationError`. -/
theorem C2_counterexample :
    TaskUpdate.valid nullNamePatch = true ∧
    update_task [task1] 7 uuidRaw1 nullNamePatch =
      (Except.error ApiError.InternalError, [task1]) ∧
    ApiError.InternalError ≠ ApiError.ValidationError := by
  refine ⟨by decide, rfl, by decide⟩

/-- C2 (amended): for every update addressed to an existing task, each
field present with a non-null value is validated with the same rules as
create (name 1–255 characters, description at most 1000 characters,
status one of the three enumeration values, enforced at parse time); if
any such field violates its rule the whole update is rejected with
`ValidationError` and no field of the stored task changes. (A field
explicitly set to `null` bypasses the length rules; nulling the
non-nullable `name` or `status` column instead fails at commit.) -/
theorem C2_update_validation (db : List Task) (now : Nat) (raw : String)
    (u : TaskUpdate) (id : Nat) (t : Task)
    (hraw : parseUUID raw = some id) (_hfind : dbGet db id = some t)
    (hbad : u.valid = false) :
    update_task db now raw u = (Except.error ApiError.ValidationError, db) := by
  unfold update_task
  rw [hraw]
  simp [hbad]

/-- C2 witness: the amended theorem at a concrete input — an existing
task and a patch whose present `name` is the empty string; the store is
unchanged. -/
theorem C2_update_validation_witness :
    update_task [task1] 7 uuidRaw1 badNamePatch =
      (Except.error ApiError.ValidationError, [task1]) :=
  C2_update_validation [task1] 7 uuidRaw1 badNamePatch 1 task1
    (by decide) rfl (by decide)

/-- C3 counterexample: the claim says the record returned for a created
task has `created_at` equal to `updated_at`. The two timestamp columns
carry separate `default=datetime.utcnow` callables that SQLAlchemy
evaluates independently at flush; nothing makes the two readings equal.
At the concrete input where the two evaluations read 6 and 7 (the insert
straddling a clock tick), the create succeeds, the round-trip returns the
stored record with the input name and description and status `created`,
yet its `created_at` differs from its `updated_at`. -/
theorem C3_counterexample :
    create_task [] 42 6 7 { name := "Buy milk", description := none } =
      (Except.ok (freshTask 42 6 7 { name := "Buy milk", description := none }),
        [freshTask 42 6 7 { name := "Buy milk", description := none }]) ∧
    get_task [freshTask 42 6 7 { name := "Buy milk", description := none }] uuidRaw42 =
      Except.ok (freshTask 42 6 7 { name := "Buy milk", description := none }) ∧
    (freshTask 42 6 7 { name := "Buy milk", description := none }).created_at ≠
      (freshTask 42 6 7 { name := "Buy milk", description := none }).updated_at := by
  refine ⟨rfl, rfl, by decide⟩

/-- C3 (amended): for every valid `(name, description)` create request
and fresh identifier, getting the created task by its id returns the
stored record, whose `name` and `description` equal the inputs and whose
`status` is `created`; its `created_at` equals its `updated_at` whenever
the two timestamp column defaults — evaluated independently at insert —
happen to read the same clock value (the code itself does not force
them to coincide). -/
theorem C3_roundtrip (db : List Task) (fresh nowC nowU : Nat)
    (req : TaskCreate) (raw : String)
    (hv : req.valid = true) (hfresh : dbGet db fresh = none)
    (hraw : parseUUID raw = some fresh) :
    create_task db fresh nowC nowU req =
      (Except.ok (freshTask fresh nowC nowU req),
        db ++ [freshTask fresh nowC nowU req]) ∧
    get_task (db ++ [freshTask fresh nowC nowU req]) raw =
      Except.ok (freshTask fresh nowC nowU req) ∧
    (freshTask fresh nowC nowU req).name = req.name ∧
    (freshTask fresh nowC nowU req).description = req.description ∧
    (freshTask fresh nowC nowU req).status = TaskStatus.created ∧
    (nowC = nowU →
      (freshTask fresh nowC nowU req).created_at =
        (freshTask fresh nowC nowU req).updated_at) := by
  refine ⟨by simp [create_task, hv], ?_, rfl, rfl, rfl, fun h => h⟩
  unfold get_task
  rw [hraw]
  have hget : dbGet (db ++ [freshTask fresh nowC nowU req]) fresh =
      some (freshTask fresh nowC nowU req) := by
    rw [dbGet] at hfresh ⊢
    rw [List.find?_append, hfresh]
    simp [freshTask]
  simp [hget]

/-- C3 witness: the round-trip theorem at the concrete input
`create(name := Buy milk, no description)` on the empty store with fresh
identifier 42, both timestamp defaults reading 6 — there `created_at`
does equal `updated_at`. -/
theorem C3_roundtrip_witness :
    (create_task [] 42 6 6 { name := "Buy milk", description := none } =
      (Except.ok (freshTask 42 6 6 { name := "Buy milk", description := none }),
        [freshTask 42 6 6 { name := "Buy milk", description := none }]) ∧
    get_task [freshTask 42 6 6 { name := "Buy milk", description := none }] uuidRaw42 =
      Except.ok (freshTask 42 6 6 { name := "Buy milk", description := none }) ∧
    (freshTask 42 6 6 { name := "Buy milk", description := none }).name = "Buy milk" ∧
    (freshTask 42 6 6 { name := "Buy milk", description := none }).description = none ∧
    (freshTask 42 6 6 { name := "Buy milk", description := none }).status = TaskStatus.created ∧
    (6 = 6 →
      (freshTask 42 6 6 { name := "Buy milk", description := none }).created_at =
        (freshTask 42 6 6 { name := "Buy milk", description := none }).updated_at)) ∧
    (freshTask 42 6 6 { name := "Buy milk", description := none }).created_at =
      (freshTask 42 6 6 { name := "Buy milk", description := none }).updated_at := by
  have h := C3_roundtrip [] 42 6 6 { name := "Buy milk", description := none }
    uuidRaw42 (by decide) rfl (by decide)
  exact ⟨h, h.2.2.2.2.2 rfl⟩

/-- C4 counterexample: the claim says a call carrying a negative `skip` or
`limit` is never executed against the store with that negative value. The
handler declares `skip: int = 0, limit: int = 100` with no lower bound:
at the concrete input `skip = limit = -1` the built store query carries
both negative values verbatim and the call executes against the store,
returning rows rather than being rejected. -/
theorem C4_counterexample :
    (get_tasks_query (-1) (-1) none).skip = -1 ∧
    (get_tasks_query (-1) (-1) none).limit = -1 ∧
    ((get_tasks_query (-1) (-1) none).skip < 0 ∧
      (get_tasks_query (-1) (-1) none).limit < 0) ∧
    get_tasks [task1] (-1) (-1) none = [task1] := by
  refine ⟨rfl, rfl, by decide, rfl⟩

/-- C4 (amended): `skip` and `limit` default to 0 and 100, but the service
enforces no non-negativity: the received integers are handed to the store
verbatim, and a call carrying negative values still executes — SQLite
treats a negative OFFSET as 0 and a negative LIMIT as no limit, so such a
call returns the whole (filtered) set rather than an error. -/
theorem C4_passthrough (db : List Task) (skip lim : Int)
    (s? : Option TaskStatus) (hs : skip ≤ 0) (hl : lim < 0) :
    defaultSkip = 0 ∧ defaultLimit = 100 ∧
    get_tasks_query skip lim s? =
      { statusFilter := s?, skip := skip, limit := lim } ∧
    get_tasks db skip lim s? = filterStatus db s? := by
  refine ⟨rfl, rfl, rfl, ?_⟩
  have hzero : skip.toNat = 0 := Int.toNat_eq_zero.mpr hs
  simp [get_tasks, runStoreQuery, get_tasks_query, sqlOffset, sqlLimit,
    hzero, hl]

/-- C4 witness: the amended theorem at `skip = limit = -1` on a one-row
store. -/
theorem C4_passthrough_witness :
    defaultSkip = 0 ∧ defaultLimit = 100 ∧
    get_tasks_query (-1) (-1) none =
      { statusFilter := none, skip := -1, limit := -1 } ∧
    get_tasks [task1] (-1) (-1) none = filterStatus [task1] none :=
  C4_passthrough [task1] (-1) (-1) none (by decide) (by decide)

/-- C5 counterexample: the claim says that for every store state the count
returned by `list(status=S)` equals the count of stored records with
status `S`. With the default `limit = 100`, a store holding 101 tasks of
status `created` yields only 100 records. -/
theorem C5_counterexample :
    (get_tasks db101 defaultSkip defaultLimit (some TaskStatus.created)).length
      = 100 ∧
    (db101.filter (fun t => t.status == TaskStatus.created)).length = 101 := by
  constructor
  · rfl
  · rfl

/-- C5 (amended): every record returned by `list(status=S)` has status
`S`, for any `skip` and `limit` whatsoever (negative ones included); and
whenever `skip = 0`, `limit` is non-negative and at least the number of
matching stored records (as with the defaults in any store with at most
100 matches), the returned count equals the count of stored records with
status `S`. -/
theorem C5_filter_correct (db : List Task) (S : TaskStatus) (skip lim : Int) :
    (∀ t ∈ get_tasks db skip lim (some S), t.status = S) ∧
    (0 ≤ lim →
      (db.filter (fun t => t.status == S)).length ≤ lim.toNat →
      (get_tasks db 0 lim (some S)).length =
        (db.filter (fun t => t.status == S)).length) := by
  constructor
  · intro t ht
    rw [get_tasks, runStoreQuery, get_tasks_query, sqlLimit] at ht
    have hmem : t ∈ sqlOffset (filterStatus db (some S)) skip := by
      by_cases hneg : lim < 0
      · simpa [hneg] using ht
      · rw [if_neg hneg] at ht
        exact List.mem_of_mem_take ht
    have hfil : t ∈ filterStatus db (some S) :=
      List.mem_of_mem_drop hmem
    rw [filterStatus] at hfil
    have := (List.mem_filter.mp hfil).2
    simpa using this
  · intro hl hcount
    rw [get_tasks, runStoreQuery, get_tasks_query, sqlOffset, sqlLimit,
      if_neg (not_lt.mpr hl)]
    simp only [Int.toNat_zero, List.drop_zero]
    rw [filterStatus, List.length_take]
    exact Nat.min_eq_right hcount

/-- C5 witness: the amended theorem applied on the truncating 101-task
store with the default pagination (where only the membership half
applies, instantiated at its head record) and on a two-task store
filtered by `in_progress` (where the count half's hypotheses hold and are
discharged). -/
theorem C5_filter_correct_witness :
    (get_tasks [task1, task2] 0 100 (some TaskStatus.in_progress)).length =
      ([task1, task2].filter
        (fun t => t.status == TaskStatus.in_progress)).length ∧
    ({ uuid := 0, name := "t", description := none,
       status := TaskStatus.created, created_at := 0, updated_at := 0 } :
        Task).status = TaskStatus.created := by
  refine ⟨(C5_filter_correct [task1, task2] TaskStatus.in_progress 0 100).2
    (by decide) (by decide), ?_⟩
  exact (C5_filter_correct db101 TaskStatus.created (-1) (-1)).1
    { uuid := 0, name := "t", description := none,
      status := TaskStatus.created, created_at := 0, updated_at := 0 }
    (by decide)

/-- C6: for every store state and all non-negative `k` and `n`,
`list(skip=k, limit=n)` returns exactly the records at positions
`k..k+n-1` of the insertion ordering of the (optionally filtered) set —
i.e. the `n`-prefix of the `k`-suffix of `filterStatus db s?` — and when
`k` is at least the size of the filtered set the result is the empty
sequence (a value, never an error). Repeated calls with no intervening
writes read the same store and so return the same sequence. -/
theorem C6_pagination (db : List Task) (k n : Int) (s? : Option TaskStatus)
    (_hk : 0 ≤ k) (hn : 0 ≤ n) :
    get_tasks db k n s? = ((filterStatus db s?).drop k.toNat).take n.toNat ∧
    ((filterStatus db s?).length ≤ k.toNat → get_tasks db k n s? = []) := by
  have hmain : get_tasks db k n s? =
      ((filterStatus db s?).drop k.toNat).take n.toNat := by
    rw [get_tasks, runStoreQuery, get_tasks_query, sqlOffset, sqlLimit,
      if_neg (not_lt.mpr hn)]
  refine ⟨hmain, fun hbig => ?_⟩
  rw [hmain, List.drop_eq_nil_of_le hbig, List.take_nil]

/-- C6 witness: on a five-task store, `list(skip=2, limit=2)` returns the
third and fourth records of the insertion order, and `list(skip=7,
limit=2)` returns the empty sequence. -/
theorem C6_pagination_witness :
    (get_tasks wdb5 2 2 none = ((filterStatus wdb5 none).drop 2).take 2 ∧
      ((filterStatus wdb5 none).length ≤ 2 → get_tasks wdb5 2 2 none = [])) ∧
    get_tasks wdb5 7 2 none = [] := by
  refine ⟨C6_pagination wdb5 2 2 none (by decide) (by decide), ?_⟩
  exact (C6_pagination wdb5 7 2 none (by decide) (by decide)).2 (by decide)

/-- C7 counterexample: the claim says `updated_at` is set to the current
time and is strictly later than its prior value. The handler only assigns
`datetime.utcnow()`; nothing enforces that the clock reading exceeds the
stored value. At the concrete input where the update runs at clock
reading 3 — the stored task's `updated_at` — the update succeeds and the
new `updated_at` equals, and is not strictly later than, the prior one. -/
theorem C7_counterexample :
    update_task [task1] 3 uuidRaw1 renamePatch =
      (Except.ok (applyPatch task1 renamePatch 3),
        dbPut [task1] (applyPatch task1 renamePatch 3)) ∧
    (applyPatch task1 renamePatch 3).updated_at = task1.updated_at ∧
    ¬ task1.updated_at < (applyPatch task1 renamePatch 3).updated_at := by
  refine ⟨rfl, rfl, by decide⟩

/-- C7 (amended): for every existing task and every successful update
whose patch sets only a subset of the fields, the fields absent from the
patch keep exactly their prior values, `created_at` keeps its prior
value, and `updated_at` is set to the current clock reading — which is
strictly later than its prior value whenever the clock reading is. -/
theorem C7_partial_update_frame (db : List Task) (now : Nat) (raw : String)
    (u : TaskUpdate) (id : Nat) (t : Task)
    (hraw : parseUUID raw = some id) (hfind : dbGet db id = some t)
    (hv : u.valid = true) (hnn : u.nullsNonNullable = false) :
    update_task db now raw u =
      (Except.ok (applyPatch t u now), dbPut db (applyPatch t u now)) ∧
    (u.name = none → (applyPatch t u now).name = t.name) ∧
    (u.description = none → (applyPatch t u now).description = t.description) ∧
    (u.status = none → (applyPatch t u now).status = t.status) ∧
    (applyPatch t u now).created_at = t.created_at ∧
    (applyPatch t u now).updated_at = now ∧
    (t.updated_at < now → t.updated_at < (applyPatch t u now).updated_at) := by
  refine ⟨update_task_ok db now raw u id t hraw hfind hv hnn,
    ?_, ?_, ?_, rfl, rfl, fun h => h⟩
  · intro h
    simp [applyPatch, h]
  · intro h
    simp [applyPatch, h]
  · intro h
    simp [applyPatch, h]

/-- C7 witness: the amended theorem for an update that only nulls the
description, run at clock reading 9 against a task stored at 3: name,
status and `created_at` are untouched and `updated_at` strictly
increases. -/
theorem C7_partial_update_frame_witness :
    (update_task [task1] 9 uuidRaw1 nullDescPatch =
      (Except.ok (applyPatch task1 nullDescPatch 9),
        dbPut [task1] (applyPatch task1 nullDescPatch 9)) ∧
    (nullDescPatch.name = none →
      (applyPatch task1 nullDescPatch 9).name = task1.name) ∧
    (nullDescPatch.description = none →
      (applyPatch task1 nullDescPatch 9).description = task1.description) ∧
    (nullDescPatch.status = none →
      (applyPatch task1 nullDescPatch 9).status = task1.status) ∧
    (applyPatch task1 nullDescPatch 9).created_at = task1.created_at ∧
    (applyPatch task1 nullDescPatch 9).updated_at = 9 ∧
    (task1.updated_at < 9 →
      task1.updated_at < (applyPatch task1 nullDescPatch 9).updated_at)) ∧
    task1.updated_at < (applyPatch task1 nullDescPatch 9).updated_at := by
  have h := C7_partial_update_frame [task1] 9 uuidRaw1 nullDescPatch 1 task1
    (by decide) rfl (by decide) (by decide)
  exact ⟨h, h.2.2.2.2.2.2 (by decide)⟩

/-- C8: for every get request, a path segment that does not parse as a
128-bit identifier produces `ValidationError` — for every store state
alike, the repository plays no part in the outcome; a well-formed id
bound to no stored task produces `NotFoundError`; a well-formed id bound
to a stored task returns that exact stored record. -/
theorem C8_get_dispatch (db : List Task) (raw : String) :
    (parseUUID raw = none →
      get_task db raw = Except.error ApiError.ValidationError) ∧
    (∀ id, parseUUID raw = some id → dbGet db id = none →
      get_task db raw = Except.error ApiError.NotFoundError) ∧
    (∀ id t, parseUUID raw = some id → dbGet db id = some t →
      get_task db raw = Except.ok t) := by
  refine ⟨fun hp => ?_, fun id hp habs => ?_, fun id t hp hfind => ?_⟩
  · unfold get_task
    rw [hp]
  · unfold get_task
    rw [hp]
    simp [habs]
  · unfold get_task
    rw [hp]
    simp [hfind]

/-- C8 witness: the dispatch theorem at the three concrete inputs
`not-a-uuid` (malformed, 422 even with the task stored), an unused
well-formed id on the empty store (404), and a stored id (200 with the
stored record). -/
theorem C8_get_dispatch_witness :
    get_task [task1] "not-a-uuid" = Except.error ApiError.ValidationError ∧
    get_task [] uuidRaw1 = Except.error ApiError.NotFoundError ∧
    get_task [task1] uuidRaw1 = Except.ok task1 :=
  ⟨(C8_get_dispatch [task1] "not-a-uuid").1 (by decide),
   (C8_get_dispatch [] uuidRaw1).2.1 1 (by decide) rfl,
   (C8_get_dispatch [task1] uuidRaw1).2.2 1 task1 (by decide) (by decide)⟩

/-- C9 counterexample: the claim says that after a successful delete,
`update(id, patch)` yields `NotFoundError` for any patch. At the concrete
input where the patch carries an empty name, the delete succeeds but the
subsequent update yields `ValidationError` (body validation precedes the
handler), not `NotFoundError`. -/
theorem C9_counterexample :
    delete_task [task1] uuidRaw1 = (Except.ok (), ([] : List Task)) ∧
    update_task (delete_task [task1] uuidRaw1).2 5 uuidRaw1 badNamePatch =
      (Except.error ApiError.ValidationError, (delete_task [task1] uuidRaw1).2) ∧
    ApiError.ValidationError ≠ ApiError.NotFoundError := by
  refine ⟨rfl, rfl, by decide⟩

/-- C9 (amended): after `delete(id)` succeeds, every subsequent
`get(id)`, `update(id, patch)` for every patch that passes body
validation, and a second `delete(id)` all yield `NotFoundError` and leave
the store untouched: a deleted task is indistinguishable from one that
never existed to any subsequent read. -/
theorem C9_deletion_final (db : List Task) (raw : String) (id : Nat)
    (now : Nat) (u : TaskUpdate)
    (hraw : parseUUID raw = some id)
    (hdel : (delete_task db raw).1 = Except.ok ())
    (hv : u.valid = true) :
    get_task (delete_task db raw).2 raw = Except.error ApiError.NotFoundError ∧
    update_task (delete_task db raw).2 now raw u =
      (Except.error ApiError.NotFoundError, (delete_task db raw).2) ∧
    delete_task (delete_task db raw).2 raw =
      (Except.error ApiError.NotFoundError, (delete_task db raw).2) := by
  have hpost : (delete_task db raw).2 = dbDelete db id := by
    unfold delete_task at hdel ⊢
    rw [hraw] at hdel ⊢
    rcases hfind : dbGet db id with _ | t0
    · simp [hfind] at hdel
    · simp [hfind]
  have habs : dbGet (dbDelete db id) id = none := dbGet_dbDelete db id
  rw [hpost]
  refine ⟨?_, ?_, ?_⟩
  · unfold get_task
    rw [hraw]
    simp [habs]
  · unfold update_task
    rw [hraw]
    simp [hv, habs]
  · unfold delete_task
    rw [hraw]
    simp [habs]

/-- C9 witness: the amended theorem on a one-task store: after the
successful delete, get, a valid rename update, and a second delete all
report `NotFoundError` against the emptied store. -/
theorem C9_deletion_final_witness :
    get_task (delete_task [task1] uuidRaw1).2 uuidRaw1 =
      Except.error ApiError.NotFoundError ∧
    update_task (delete_task [task1] uuidRaw1).2 5 uuidRaw1 renamePatch =
      (Except.error ApiError.NotFoundError, (delete_task [task1] uuidRaw1).2) ∧
    delete_task (delete_task [task1] uuidRaw1).2 uuidRaw1 =
      (Except.error ApiError.NotFoundError, (delete_task [task1] uuidRaw1).2) :=
  C9_deletion_final [task1] uuidRaw1 1 5 renamePatch (by decide) rfl (by decide)

/-- C10: for every existing task, an update whose patch explicitly sets
`description` to `null` succeeds, stores `null` as the description and
returns it as `null`, whereas a patch that omits the `description` field
leaves the stored description unchanged: the update distinguishes an
explicitly-null field from an absent one. -/
theorem C10_null_vs_absent (db : List Task) (now : Nat) (raw : String)
    (u : TaskUpdate) (id : Nat) (t : Task)
    (hraw : parseUUID raw = some id) (hfind : dbGet db id = some t)
    (hv : u.valid = true) (hnn : u.nullsNonNullable = false) :
    (u.description = some none → (applyPatch t u now).description = none) ∧
    (u.description = none → (applyPatch t u now).description = t.description) ∧
    update_task db now raw u =
      (Except.ok (applyPatch t u now), dbPut db (applyPatch t u now)) ∧
    dbGet (dbPut db (applyPatch t u now)) id = some (applyPatch t u now) := by
  obtain ⟨huid, hmem⟩ := dbGet_some db id t hfind
  refine ⟨fun h => by simp [applyPatch, h],
    fun h => by simp [applyPatch, h],
    update_task_ok db now raw u id t hraw hfind hv hnn, ?_⟩
  have hu2 : (applyPatch t u now).uuid = id := by
    rw [applyPatch]
    exact huid
  rw [← hu2]
  exact dbGet_dbPut_same db (applyPatch t u now)
    ⟨t, hmem, by rw [applyPatch]⟩

/-- C10 witness: the theorem at two concrete patches against the stored
`task1` (whose description is non-null): the explicitly-null patch stores
and returns `null`, the empty patch keeps the prior description. -/
theorem C10_null_vs_absent_witness :
    (applyPatch task1 nullDescPatch 9).description = none ∧
    update_task [task1] 9 uuidRaw1 nullDescPatch =
      (Except.ok (applyPatch task1 nullDescPatch 9),
        dbPut [task1] (applyPatch task1 nullDescPatch 9)) ∧
    dbGet (dbPut [task1] (applyPatch task1 nullDescPatch 9)) 1 =
      some (applyPatch task1 nullDescPatch 9) ∧
    (applyPatch task1 { name := none, description := none, status := none } 9).description
      = task1.description := by
  have h1 := C10_null_vs_absent [task1] 9 uuidRaw1 nullDescPatch 1 task1
    (by decide) rfl (by decide) (by decide)
  have h2 := C10_null_vs_absent [task1] 9 uuidRaw1
    { name := none, description := none, status := none } 1 task1
    (by decide) rfl (by decide) (by decide)
  exact ⟨h1.1 rfl, h1.2.2.1, h1.2.2.2, h2.2.1 rfl⟩

end TaskApi
